import Mathlib

/-!
Shallow embedding of the finance-bro repository's serverless functions and
frontend state logic, for checking the natural-language specification.

Sources embedded:
- `supabase/functions/chat/index.ts` (the chat edge function)
- `supabase/functions/profile/index.ts` (the profile edge function)
- the frontend `App` component and the frontend supabase client module

JavaScript values are modelled by `JSVal`; `Math.random()` draws are
modelled by an explicit stream `Nat → ℚ` of values in `[0, 1)`, consumed
left-to-right in source order (20 draws per stock row, then 6 for the
stats snapshot).  `Date` values are modelled by their day number: the
source's `date.setDate(date.getDate() - i)` is day arithmetic, and
`toISOString` is injective on dates, so the ISO string is represented by
the integer day.  `JSON.parse` is a platform primitive, not repository
code, so handlers take the parser (`String → Option JSVal`) and the parse
outcome of the request body (`Option JSVal`, `none` = parse failure) as
parameters.
-/

namespace FinanceBro

/-- A JavaScript/JSON value.  Objects are association lists in insertion
order; `undefined` stands for a missing property. -/
inductive JSVal where
  | str (s : String)
  | num (q : ℚ)
  | boolean (b : Bool)
  | null
  | undefined
  | arr (xs : List JSVal)
  | obj (fields : List (String × JSVal))

/-- Property access `v[f]` on a JavaScript value: looks the key up in an
object, `undefined` otherwise (matching `body.message` on a non-object). -/
def jsField (f : String) : JSVal → JSVal
  | .obj fs => (fs.lookup f).getD .undefined
  | _ => .undefined

/-- JavaScript truthiness, as used by `if (!message)`. -/
def jsTruthy : JSVal → Bool
  | .str s => decide (s ≠ "")
  | .num q => decide (q ≠ 0)
  | .boolean b => b
  | .null => false
  | .undefined => false
  | .arr _ => true
  | .obj _ => true

/-- The key/value entries contributed by `{...v}` object spread: an
object's own entries; primitives contribute none.  (A spread string
contributes numeric-index keys, which no repository code reads; they are
omitted.) -/
def spreadFields : JSVal → List (String × JSVal)
  | .obj fs => fs
  | _ => []

/-- `JSON.stringify({error: msg})`-shaped error body. -/
def errObj (msg : String) : JSVal := .obj [("error", .str msg)]

/-- The `error` property of a response body, when it is a string. -/
def errorString (v : JSVal) : Option String :=
  match jsField "error" v with
  | .str s => some s
  | _ => none

/-- An HTTP response: status code and JSON body. -/
structure HttpResponse where
  status : Nat
  body : JSVal

/-! ## Chat function (`supabase/functions/chat/index.ts`) -/

/-- The environment the chat function reads (`Deno.env.get('DEEPSEEK_API_KEY')`). -/
structure ChatEnv where
  deepseekApiKey : Option String

/-- Outcome of the `fetch` to the DeepSeek chat-completions endpoint:
a non-2xx HTTP reply, a 2xx reply whose JSON has no `choices` (the code
then throws `No choices returned from API.`), or a 2xx reply carrying the
first choice's message content. -/
inductive LLMOutcome where
  | httpError (status : Nat) (statusText : String) (errorText : String)
  | noChoices
  | reply (content : String)

/-- Lines 16–30 of the chat function: `body.message` must be a truthy
string, else the request is answered 400.  Returns the accepted message.
`none` covers: unparseable body, non-object body, missing `message`,
non-string `message`, and the empty string (falsy). -/
def extractMessage : Option JSVal → Option String
  | none => none
  | some v =>
    match jsField "message" v with
    | .str s => if s = "" then none else some s
    | _ => none

/-- One mock stock row (chat function lines 121–147, before `reverse`):
row `i` carries the date `today - i` and twenty `Math.random()` draws,
consumed in source order at stream positions `20*i .. 20*i+19`. -/
def mkStockRow (today : Int) (r : Nat → ℚ) (i : Nat) : JSVal :=
  .obj [
    ("date", .num (today - i)),
    ("price", .num (r (20 * i) * 100 + 50)),
    ("open", .num (r (20 * i + 1) * 100 + 50)),
    ("high", .num (r (20 * i + 2) * 100 + 50)),
    ("low", .num (r (20 * i + 3) * 100 + 50)),
    ("volume", .num (r (20 * i + 4) * 1000000)),
    ("returns", .num (r (20 * i + 5) * (1 / 10) - 1 / 20)),
    ("ma20", .num (r (20 * i + 6) * 100 + 50)),
    ("ma50", .num (r (20 * i + 7) * 100 + 50)),
    ("ma200", .num (r (20 * i + 8) * 100 + 50)),
    ("atr", .num (r (20 * i + 9) * 5)),
    ("obv", .num (r (20 * i + 10) * 1000000)),
    ("ad", .num (r (20 * i + 11) * 1000000)),
    ("momentum", .num (r (20 * i + 12) * 10 - 5)),
    ("roc", .num (r (20 * i + 13) * 10 - 5)),
    ("natr", .num (r (20 * i + 14) * (1 / 10))),
    ("rsi", .num (r (20 * i + 15) * 100)),
    ("macd", .num (r (20 * i + 16) * 10 - 5)),
    ("macd_signal", .num (r (20 * i + 17) * 10 - 5)),
    ("bb_upper", .num (r (20 * i + 18) * 100 + 50)),
    ("bb_lower", .num (r (20 * i + 19) * 100 + 50))
  ]

/-- The mock series: `Array.from({length: 30}, (_, i) => ...).reverse()`. -/
def mkStockData (today : Int) (r : Nat → ℚ) : List JSVal :=
  ((List.range 30).map (mkStockRow today r)).reverse

/-- The mock stats snapshot (chat function lines 150–159); its six draws
follow the 600 row draws at stream positions 600–605. -/
def mkStats (r : Nat → ℚ) : JSVal :=
  .obj [("technical", .obj [
    ("atr", .num (r 600 * 5)),
    ("natr", .num (r 601 * (1 / 10))),
    ("obv", .num (r 602 * 1000000)),
    ("ad_line", .num (r 603 * 1000000)),
    ("momentum", .num (r 604 * 10 - 5)),
    ("roc", .num (r 605 * 10 - 5))
  ])]

/-- Chat handler result: the HTTP response plus whether the upstream
DeepSeek `fetch` was reached. -/
structure ChatResult where
  response : HttpResponse
  upstreamCalled : Bool

/-- The degraded analysis object built when `JSON.parse` on the reply
content throws (chat function lines 112–117). -/
def fallbackAnalysis (content : String) : JSVal :=
  .obj [
    ("summary", .str content),
    ("technicalFactors", .arr []),
    ("fundamentalFactors", .arr []),
    ("outlook", .str "Unable to generate detailed analysis")]

/-- Lines 107–118: `JSON.parse` the reply content, falling back to the
degraded analysis object on a parse error. -/
def analysisOf (jsonParse : String → Option JSVal) (content : String) : JSVal :=
  match jsonParse content with
  | some v => v
  | none => fallbackAnalysis content

/-- The 200 response body of the chat function (lines 165–179):
`{stockData, analysisText: {...analysisText, timestamp}, stats, shareId}`. -/
def chatOkBody (analysis : JSVal) (today : Int) (timestamp : String)
    (rng : Nat → ℚ) (uuid : String) : JSVal :=
  .obj [
    ("stockData", .arr (mkStockData today rng)),
    ("analysisText", .obj (spreadFields analysis ++ [("timestamp", .str timestamp)])),
    ("stats", mkStats rng),
    ("shareId", .str uuid)]

/-- The chat request handler (`Deno.serve` callback, non-OPTIONS path),
parameterised by the ambient JSON parser, the environment, the parse
outcome of the request body, the upstream call's outcome, the request
date and timestamp, the `Math.random()` stream and the `crypto.randomUUID()`
value.  Mirrors the source's control flow:
400 on bad body before any env read; 500 on a missing API key; the
upstream status propagated on provider error; 500 on a choiceless payload
(thrown, caught at the boundary); otherwise 200 with the JSON-parsed
reply content — or, when the content does not parse, the fallback
analysis object — bundled with mock stock data, stats and the share id. -/
def chatHandler (jsonParse : String → Option JSVal) (env : ChatEnv)
    (body : Option JSVal) (llm : LLMOutcome) (today : Int) (timestamp : String)
    (rng : Nat → ℚ) (uuid : String) : ChatResult :=
  match extractMessage body with
  | none => ⟨⟨400, errObj "Invalid JSON body"⟩, false⟩
  | some _message =>
    match env.deepseekApiKey with
    | none => ⟨⟨500, errObj "Missing API key"⟩, false⟩
    | some _key =>
      match llm with
      | .httpError status statusText errorText =>
          ⟨⟨status, errObj ("DeepSeek API error: " ++ toString status ++ " "
              ++ statusText ++ " - " ++ errorText)⟩, true⟩
      | .noChoices =>
          ⟨⟨500, .obj [("error", .str "No choices returned from API."),
                       ("timestamp", .str timestamp)]⟩, true⟩
      | .reply content =>
        ⟨⟨200, chatOkBody (analysisOf jsonParse content) today timestamp rng uuid⟩,
         true⟩

/-- Outcome of loading a module at startup. -/
inductive StartupOutcome where
  | started
  | failed (msg : String)
deriving DecidableEq

/-- Module top level of the chat function: only `corsHeaders` and the
`Deno.serve(...)` registration — no environment read happens before the
function starts serving requests, whatever the environment holds. -/
def chatStartup (_env : ChatEnv) : StartupOutcome := .started

/-! ## Profile function (`supabase/functions/profile/index.ts`) -/

/-- The environment the profile function reads per request (with `?? ''`
empty-string defaults). -/
structure ProfileEnv where
  supabaseUrl : Option String
  serviceRoleKey : Option String

/-- Module top level of the profile function: `corsHeaders`, the two
field-mapping dictionaries and `serve(...)` — the environment is only read
inside the request handler, so startup always succeeds. -/
def profileStartup (_env : ProfileEnv) : StartupOutcome := .started

/-- `fieldMapping` (profile function lines 12–19): frontend name to
database column name. -/
def fieldMapping : List (String × String) :=
  [("timeHorizon", "investment_horizon"),
   ("riskTolerance", "risk_tolerance"),
   ("investmentGoal", "investment_goal"),
   ("initialInvestment", "initial_investment"),
   ("monthlyContribution", "monthly_contribution"),
   ("preferredAssetTypes", "preferred_asset_types")]

/-- `reverseFieldMapping` (lines 22–25): each entry of `fieldMapping`
swapped. -/
def reverseFieldMapping : List (String × String) :=
  fieldMapping.map (fun p => (p.2, p.1))

/-- One step of the `Object.entries(...).reduce(...)` renaming: a key
present in the dictionary is renamed, every other key passes through with
its value untouched. -/
def renameEntry (m : List (String × String)) (kv : String × JSVal) :
    String × JSVal :=
  match m.lookup kv.1 with
  | some k2 => (k2, kv.2)
  | none => kv

/-- The full renaming used on both the GET and the POST path. -/
def renameKeys (m : List (String × String)) (o : List (String × JSVal)) :
    List (String × JSVal) :=
  o.map (renameEntry m)

/-- The client field names, i.e. the domain of `fieldMapping`. -/
def clientFieldNames : List String := fieldMapping.map Prod.fst

/-- `supabaseClient.auth.getUser(token)`: either a user id or an error
(`userError` non-null or `user` null — both make the handler throw
`Invalid token`). -/
inductive AuthOutcome where
  | ok (userId : String)
  | err (msg : String)

/-- A database operation issued through the supabase client, recorded in
the order the handler performs it. -/
inductive DbOp where
  | authGetUser (token : String)
  | selectProfile (userId : String)
  | upsertProfile (row : List (String × JSVal))

/-- Whether an operation reads or writes the `profiles` table (the
`auth.getUser` call is an auth-service call, not a table access). -/
def DbOp.touchesProfiles : DbOp → Bool
  | .authGetUser _ => false
  | .selectProfile _ => true
  | .upsertProfile _ => true

/-- Profile handler result: HTTP response plus the database operations
performed. -/
structure ProfileResult where
  response : HttpResponse
  dbOps : List DbOp

/-- `authHeader.replace('Bearer ', '')`: strips the scheme prefix. -/
def stripBearer (h : String) : String :=
  if h.startsWith "Bearer " then h.drop 7 else h

/-- The profile request handler (`serve` callback), parameterised by the
auth lookup, the `profiles` reads/writes (each `Except.error` models a
non-null supabase `error`, which the source throws), the parse outcome of
the POST body and the `new Date().toISOString()` value.  Every thrown
error is caught at the function boundary and answered with status 400 and
`{error: message}` (lines 130–138); this single 400 error path is also the
function's unauthorized response. -/
def profileHandler (method : String) (authHeader : Option String)
    (getUser : String → AuthOutcome)
    (selectProfile : String → Except String (List (String × JSVal)))
    (upsertProfile : List (String × JSVal) → Except String (List (String × JSVal)))
    (body : Option JSVal) (nowIso : String) : ProfileResult :=
  if method = "OPTIONS" then ⟨⟨200, .null⟩, []⟩
  else
    match authHeader with
    | none => ⟨⟨400, errObj "No authorization header"⟩, []⟩
    | some h =>
      let token := stripBearer h
      match getUser token with
      | .err _ => ⟨⟨400, errObj "Invalid token"⟩, [.authGetUser token]⟩
      | .ok uid =>
        if method = "GET" then
          match selectProfile uid with
          | .error e => ⟨⟨400, errObj e⟩, [.authGetUser token, .selectProfile uid]⟩
          | .ok row =>
              ⟨⟨200, .obj (renameKeys reverseFieldMapping row)⟩,
               [.authGetUser token, .selectProfile uid]⟩
        else if method = "POST" then
          match body with
          | none => ⟨⟨400, errObj "Invalid JSON body"⟩, [.authGetUser token]⟩
          | some profile =>
            let stored : List (String × JSVal) :=
              ("user_id", .str uid)
                :: renameKeys fieldMapping (spreadFields profile)
                ++ [("updated_at", .str nowIso)]
            match upsertProfile stored with
            | .error e => ⟨⟨400, errObj e⟩, [.authGetUser token, .upsertProfile stored]⟩
            | .ok row =>
                ⟨⟨200, .obj (renameKeys reverseFieldMapping row)⟩,
                 [.authGetUser token, .upsertProfile stored]⟩
        else ⟨⟨400, errObj "Method not allowed"⟩, [.authGetUser token]⟩

/-! ## Frontend (`App` component and the supabase client module) -/

/-- The `App` component's state hooks that drive the top-level view
(`message`, `showResult`, `isLoading`, `showAuthModal`, `isAuthenticated`). -/
structure AppState where
  message : String
  showResult : Bool
  isLoading : Bool
  showAuthModal : Bool
  isAuthenticated : Bool

/-- The three top-level render states of the main area. -/
inductive RenderState where
  | loading
  | result
  | landing
deriving DecidableEq

/-- The render conditional
`isLoading ? <LoadingPage/> : showResult ? <ResultPage/> : <LandingPage/>`. -/
def renderState (s : AppState) : RenderState :=
  if s.isLoading then .loading
  else if s.showResult then .result
  else .landing

/-- `String.prototype.trim` (a platform primitive, not repository code):
strips leading and trailing whitespace, modelled over the character list. -/
def jsTrim (s : String) : String :=
  ⟨((s.data.dropWhile Char.isWhitespace).reverse.dropWhile Char.isWhitespace).reverse⟩

/-- The synchronous part of `handleSubmit`: return early on a blank
message; when unauthenticated, open the auth modal and return; otherwise
enter the loading state (the asynchronous continuation then runs). -/
def handleSubmit (s : AppState) : AppState :=
  if jsTrim s.message = "" then s
  else if ¬s.isAuthenticated then { s with showAuthModal := true }
  else { s with isLoading := true }

/-- Module top level of the frontend supabase client
(`if (!supabaseUrl || !supabaseAnonKey) throw new Error(...)`): this
module does fail at load time when either variable is absent or empty. -/
def frontendSupabaseInit (url anonKey : Option String) : StartupOutcome :=
  if url.getD "" = "" ∨ anonKey.getD "" = "" then
    .failed "Missing Supabase environment variables"
  else .started

/-! ## Statement vocabulary -/

/-- The twenty indicator fields of a stock row (all but `date`). -/
def indicatorFields : List String :=
  ["price", "open", "high", "low", "volume", "returns", "ma20", "ma50",
   "ma200", "atr", "obv", "ad", "momentum", "roc", "natr", "rsi", "macd",
   "macd_signal", "bb_upper", "bb_lower"]

/-- All documented fields of a stock row. -/
def requiredFields : List String := "date" :: indicatorFields

/-- A value is a number in the half-open interval `[lo, hi)`. -/
def numIn (v : JSVal) (lo hi : ℚ) : Prop :=
  ∃ q, v = .num q ∧ lo ≤ q ∧ q < hi

/-- Every numeric field of a stock row lies in its documented half-open
range. -/
def rowInRanges (row : JSVal) : Prop :=
  numIn (jsField "price" row) 50 150 ∧
  numIn (jsField "open" row) 50 150 ∧
  numIn (jsField "high" row) 50 150 ∧
  numIn (jsField "low" row) 50 150 ∧
  numIn (jsField "volume" row) 0 1000000 ∧
  numIn (jsField "returns" row) (-(1 / 20)) (1 / 20) ∧
  numIn (jsField "ma20" row) 50 150 ∧
  numIn (jsField "ma50" row) 50 150 ∧
  numIn (jsField "ma200" row) 50 150 ∧
  numIn (jsField "atr" row) 0 5 ∧
  numIn (jsField "obv" row) 0 1000000 ∧
  numIn (jsField "ad" row) 0 1000000 ∧
  numIn (jsField "momentum" row) (-5) 5 ∧
  numIn (jsField "roc" row) (-5) 5 ∧
  numIn (jsField "natr" row) 0 (1 / 10) ∧
  numIn (jsField "rsi" row) 0 100 ∧
  numIn (jsField "macd" row) (-5) 5 ∧
  numIn (jsField "macd_signal" row) (-5) 5 ∧
  numIn (jsField "bb_upper" row) 50 150 ∧
  numIn (jsField "bb_lower" row) 50 150

/-- The `stats.technical` snapshot fields lie in the same ranges. -/
def statsInRanges (stats : JSVal) : Prop :=
  numIn (jsField "atr" (jsField "technical" stats)) 0 5 ∧
  numIn (jsField "natr" (jsField "technical" stats)) 0 (1 / 10) ∧
  numIn (jsField "obv" (jsField "technical" stats)) 0 1000000 ∧
  numIn (jsField "ad_line" (jsField "technical" stats)) 0 1000000 ∧
  numIn (jsField "momentum" (jsField "technical" stats)) (-5) 5 ∧
  numIn (jsField "roc" (jsField "technical" stats)) (-5) 5

/-! ## Helper lemmas: field projections of a stock row -/

theorem jsField_date (today : Int) (r : Nat → ℚ) (i : Nat) :
    jsField "date" (mkStockRow today r i) = .num (today - i) := rfl

theorem jsField_price (today : Int) (r : Nat → ℚ) (i : Nat) :
    jsField "price" (mkStockRow today r i) = .num (r (20 * i) * 100 + 50) := rfl

theorem jsField_open (today : Int) (r : Nat → ℚ) (i : Nat) :
    jsField "open" (mkStockRow today r i) = .num (r (20 * i + 1) * 100 + 50) := rfl

theorem jsField_high (today : Int) (r : Nat → ℚ) (i : Nat) :
    jsField "high" (mkStockRow today r i) = .num (r (20 * i + 2) * 100 + 50) := rfl

theorem jsField_low (today : Int) (r : Nat → ℚ) (i : Nat) :
    jsField "low" (mkStockRow today r i) = .num (r (20 * i + 3) * 100 + 50) := rfl

theorem jsField_volume (today : Int) (r : Nat → ℚ) (i : Nat) :
    jsField "volume" (mkStockRow today r i) = .num (r (20 * i + 4) * 1000000) := rfl

theorem jsField_returns (today : Int) (r : Nat → ℚ) (i : Nat) :
    jsField "returns" (mkStockRow today r i)
      = .num (r (20 * i + 5) * (1 / 10) - 1 / 20) := rfl

theorem jsField_ma20 (today : Int) (r : Nat → ℚ) (i : Nat) :
    jsField "ma20" (mkStockRow today r i) = .num (r (20 * i + 6) * 100 + 50) := rfl

theorem jsField_ma50 (today : Int) (r : Nat → ℚ) (i : Nat) :
    jsField "ma50" (mkStockRow today r i) = .num (r (20 * i + 7) * 100 + 50) := rfl

theorem jsField_ma200 (today : Int) (r : Nat → ℚ) (i : Nat) :
    jsField "ma200" (mkStockRow today r i) = .num (r (20 * i + 8) * 100 + 50) := rfl

theorem jsField_atr (today : Int) (r : Nat → ℚ) (i : Nat) :
    jsField "atr" (mkStockRow today r i) = .num (r (20 * i + 9) * 5) := rfl

theorem jsField_obv (today : Int) (r : Nat → ℚ) (i : Nat) :
    jsField "obv" (mkStockRow today r i) = .num (r (20 * i + 10) * 1000000) := rfl

theorem jsField_ad (today : Int) (r : Nat → ℚ) (i : Nat) :
    jsField "ad" (mkStockRow today r i) = .num (r (20 * i + 11) * 1000000) := rfl

theorem jsField_momentum (today : Int) (r : Nat → ℚ) (i : Nat) :
    jsField "momentum" (mkStockRow today r i) = .num (r (20 * i + 12) * 10 - 5) := rfl

theorem jsField_roc (today : Int) (r : Nat → ℚ) (i : Nat) :
    jsField "roc" (mkStockRow today r i) = .num (r (20 * i + 13) * 10 - 5) := rfl

theorem jsField_natr (today : Int) (r : Nat → ℚ) (i : Nat) :
    jsField "natr" (mkStockRow today r i) = .num (r (20 * i + 14) * (1 / 10)) := rfl

theorem jsField_rsi (today : Int) (r : Nat → ℚ) (i : Nat) :
    jsField "rsi" (mkStockRow today r i) = .num (r (20 * i + 15) * 100) := rfl

theorem jsField_macd (today : Int) (r : Nat → ℚ) (i : Nat) :
    jsField "macd" (mkStockRow today r i) = .num (r (20 * i + 16) * 10 - 5) := rfl

theorem jsField_macd_signal (today : Int) (r : Nat → ℚ) (i : Nat) :
    jsField "macd_signal" (mkStockRow today r i)
      = .num (r (20 * i + 17) * 10 - 5) := rfl

theorem jsField_bb_upper (today : Int) (r : Nat → ℚ) (i : Nat) :
    jsField "bb_upper" (mkStockRow today r i)
      = .num (r (20 * i + 18) * 100 + 50) := rfl

theorem jsField_bb_lower (today : Int) (r : Nat → ℚ) (i : Nat) :
    jsField "bb_lower" (mkStockRow today r i)
      = .num (r (20 * i + 19) * 100 + 50) := rfl

/-! ## Helper lemmas: projections of the 200 response body and stats -/

theorem chatOkBody_stockData (a : JSVal) (today : Int) (ts : String)
    (r : Nat → ℚ) (u : String) :
    jsField "stockData" (chatOkBody a today ts r u) = .arr (mkStockData today r) := rfl

theorem chatOkBody_analysisText (a : JSVal) (today : Int) (ts : String)
    (r : Nat → ℚ) (u : String) :
    jsField "analysisText" (chatOkBody a today ts r u)
      = .obj (spreadFields a ++ [("timestamp", .str ts)]) := rfl

theorem chatOkBody_stats (a : JSVal) (today : Int) (ts : String)
    (r : Nat → ℚ) (u : String) :
    jsField "stats" (chatOkBody a today ts r u) = mkStats r := rfl

theorem chatOkBody_shareId (a : JSVal) (today : Int) (ts : String)
    (r : Nat → ℚ) (u : String) :
    jsField "shareId" (chatOkBody a today ts r u) = .str u := rfl

theorem mkStats_atr (r : Nat → ℚ) :
    jsField "atr" (jsField "technical" (mkStats r)) = .num (r 600 * 5) := rfl

theorem mkStats_natr (r : Nat → ℚ) :
    jsField "natr" (jsField "technical" (mkStats r)) = .num (r 601 * (1 / 10)) := rfl

theorem mkStats_obv (r : Nat → ℚ) :
    jsField "obv" (jsField "technical" (mkStats r)) = .num (r 602 * 1000000) := rfl

theorem mkStats_ad_line (r : Nat → ℚ) :
    jsField "ad_line" (jsField "technical" (mkStats r)) = .num (r 603 * 1000000) := rfl

theorem mkStats_momentum (r : Nat → ℚ) :
    jsField "momentum" (jsField "technical" (mkStats r)) = .num (r 604 * 10 - 5) := rfl

theorem mkStats_roc (r : Nat → ℚ) :
    jsField "roc" (jsField "technical" (mkStats r)) = .num (r 605 * 10 - 5) := rfl

/-! ## Helper lemmas: the success path of the chat handler -/

theorem chatHandler_success (jsonParse : String → Option JSVal) (env : ChatEnv)
    (body : Option JSVal) (today : Int) (ts : String) (rng : Nat → ℚ)
    (uuid m key content : String)
    (hm : extractMessage body = some m) (hk : env.deepseekApiKey = some key) :
    chatHandler jsonParse env body (.reply content) today ts rng uuid =
      ⟨⟨200, chatOkBody (analysisOf jsonParse content) today ts rng uuid⟩, true⟩ := by
  simp [chatHandler, hm, hk]

theorem mkStockData_length (today : Int) (r : Nat → ℚ) :
    (mkStockData today r).length = 30 := by
  simp [mkStockData]

/-- Every member of the mock series is some `mkStockRow today r i` with
`i < 30`, and conversely. -/
theorem mem_mkStockData (today : Int) (r : Nat → ℚ) (row : JSVal) :
    row ∈ mkStockData today r ↔ ∃ i, i < 30 ∧ row = mkStockRow today r i := by
  simp only [mkStockData, List.mem_reverse, List.mem_map, List.mem_range]
  constructor
  · rintro ⟨i, hi, rfl⟩; exact ⟨i, hi, rfl⟩
  · rintro ⟨i, hi, rfl⟩; exact ⟨i, hi, rfl⟩

/-- Each stock row carries all documented fields, the indicator fields
numeric. -/
theorem mkStockRow_fields (today : Int) (r : Nat → ℚ) (i : Nat) :
    (∀ f ∈ requiredFields, jsField f (mkStockRow today r i) ≠ .undefined) ∧
    ∀ f ∈ indicatorFields, ∃ q, jsField f (mkStockRow today r i) = .num q := by
  constructor
  · intro f hf
    fin_cases hf <;>
      simp [jsField_date, jsField_price, jsField_open, jsField_high,
        jsField_low, jsField_volume, jsField_returns, jsField_ma20,
        jsField_ma50, jsField_ma200, jsField_atr, jsField_obv, jsField_ad,
        jsField_momentum, jsField_roc, jsField_natr, jsField_rsi,
        jsField_macd, jsField_macd_signal, jsField_bb_upper, jsField_bb_lower]
  · intro f hf
    fin_cases hf
    · exact ⟨_, jsField_price today r i⟩
    · exact ⟨_, jsField_open today r i⟩
    · exact ⟨_, jsField_high today r i⟩
    · exact ⟨_, jsField_low today r i⟩
    · exact ⟨_, jsField_volume today r i⟩
    · exact ⟨_, jsField_returns today r i⟩
    · exact ⟨_, jsField_ma20 today r i⟩
    · exact ⟨_, jsField_ma50 today r i⟩
    · exact ⟨_, jsField_ma200 today r i⟩
    · exact ⟨_, jsField_atr today r i⟩
    · exact ⟨_, jsField_obv today r i⟩
    · exact ⟨_, jsField_ad today r i⟩
    · exact ⟨_, jsField_momentum today r i⟩
    · exact ⟨_, jsField_roc today r i⟩
    · exact ⟨_, jsField_natr today r i⟩
    · exact ⟨_, jsField_rsi today r i⟩
    · exact ⟨_, jsField_macd today r i⟩
    · exact ⟨_, jsField_macd_signal today r i⟩
    · exact ⟨_, jsField_bb_upper today r i⟩
    · exact ⟨_, jsField_bb_lower today r i⟩

/-- When the random stream is in `[0, 1)`, every field of a stock row is
in its documented range. -/
theorem mkStockRow_inRanges (today : Int) (r : Nat → ℚ) (i : Nat)
    (hr : ∀ n, 0 ≤ r n ∧ r n < 1) : rowInRanges (mkStockRow today r i) := by
  have h0 : ∀ n, 0 ≤ r n := fun n => (hr n).1
  have h1 : ∀ n, r n < 1 := fun n => (hr n).2
  refine ⟨⟨_, jsField_price today r i, ?_, ?_⟩,
    ⟨_, jsField_open today r i, ?_, ?_⟩,
    ⟨_, jsField_high today r i, ?_, ?_⟩,
    ⟨_, jsField_low today r i, ?_, ?_⟩,
    ⟨_, jsField_volume today r i, ?_, ?_⟩,
    ⟨_, jsField_returns today r i, ?_, ?_⟩,
    ⟨_, jsField_ma20 today r i, ?_, ?_⟩,
    ⟨_, jsField_ma50 today r i, ?_, ?_⟩,
    ⟨_, jsField_ma200 today r i, ?_, ?_⟩,
    ⟨_, jsField_atr today r i, ?_, ?_⟩,
    ⟨_, jsField_obv today r i, ?_, ?_⟩,
    ⟨_, jsField_ad today r i, ?_, ?_⟩,
    ⟨_, jsField_momentum today r i, ?_, ?_⟩,
    ⟨_, jsField_roc today r i, ?_, ?_⟩,
    ⟨_, jsField_natr today r i, ?_, ?_⟩,
    ⟨_, jsField_rsi today r i, ?_, ?_⟩,
    ⟨_, jsField_macd today r i, ?_, ?_⟩,
    ⟨_, jsField_macd_signal today r i, ?_, ?_⟩,
    ⟨_, jsField_bb_upper today r i, ?_, ?_⟩,
    ⟨_, jsField_bb_lower today r i, ?_, ?_⟩⟩ <;>
  first
    | linarith [h0 (20 * i), h1 (20 * i)]
    | linarith [h0 (20 * i + 1), h1 (20 * i + 1)]
    | linarith [h0 (20 * i + 2), h1 (20 * i + 2)]
    | linarith [h0 (20 * i + 3), h1 (20 * i + 3)]
    | linarith [h0 (20 * i + 4), h1 (20 * i + 4)]
    | linarith [h0 (20 * i + 5), h1 (20 * i + 5)]
    | linarith [h0 (20 * i + 6), h1 (20 * i + 6)]
    | linarith [h0 (20 * i + 7), h1 (20 * i + 7)]
    | linarith [h0 (20 * i + 8), h1 (20 * i + 8)]
    | linarith [h0 (20 * i + 9), h1 (20 * i + 9)]
    | linarith [h0 (20 * i + 10), h1 (20 * i + 10)]
    | linarith [h0 (20 * i + 11), h1 (20 * i + 11)]
    | linarith [h0 (20 * i + 12), h1 (20 * i + 12)]
    | linarith [h0 (20 * i + 13), h1 (20 * i + 13)]
    | linarith [h0 (20 * i + 14), h1 (20 * i + 14)]
    | linarith [h0 (20 * i + 15), h1 (20 * i + 15)]
    | linarith [h0 (20 * i + 16), h1 (20 * i + 16)]
    | linarith [h0 (20 * i + 17), h1 (20 * i + 17)]
    | linarith [h0 (20 * i + 18), h1 (20 * i + 18)]
    | linarith [h0 (20 * i + 19), h1 (20 * i + 19)]

/-- The stats snapshot fields are in their documented ranges. -/
theorem mkStats_inRanges (r : Nat → ℚ) (hr : ∀ n, 0 ≤ r n ∧ r n < 1) :
    statsInRanges (mkStats r) := by
  have h0 : ∀ n, 0 ≤ r n := fun n => (hr n).1
  have h1 : ∀ n, r n < 1 := fun n => (hr n).2
  refine ⟨⟨_, mkStats_atr r, ?_, ?_⟩, ⟨_, mkStats_natr r, ?_, ?_⟩,
    ⟨_, mkStats_obv r, ?_, ?_⟩, ⟨_, mkStats_ad_line r, ?_, ?_⟩,
    ⟨_, mkStats_momentum r, ?_, ?_⟩, ⟨_, mkStats_roc r, ?_, ?_⟩⟩ <;>
  first
    | linarith [h0 600, h1 600]
    | linarith [h0 601, h1 601]
    | linarith [h0 602, h1 602]
    | linarith [h0 603, h1 603]
    | linarith [h0 604, h1 604]
    | linarith [h0 605, h1 605]

/-- Equal images of `map` over a common list agree pointwise on it. -/
theorem map_eq_on {α β : Type} (f g : α → β) :
    ∀ l : List α, l.map f = l.map g → ∀ x ∈ l, f x = g x := by
  intro l
  induction l with
  | nil => intro _ x hx; cases hx
  | cons a t ih =>
    intro h x hx
    simp only [List.map_cons, List.cons.injEq] at h
    rcases List.mem_cons.mp hx with rfl | hx
    · exact h.1
    · exact ih h.2 x hx

/-- If two streams disagree on a draw a row consumes, the rows differ. -/
theorem mkStockRow_draw_ne (today : Int) (r1 r2 : Nat → ℚ) (i j : Nat)
    (hj : j < 20) (hne : r1 (20 * i + j) ≠ r2 (20 * i + j)) :
    mkStockRow today r1 i ≠ mkStockRow today r2 i := by
  intro heq
  refine hne ?_
  interval_cases j
  · simp only [Nat.add_zero]
    have h := congrArg (jsField "price") heq
    rw [jsField_price, jsField_price] at h; injection h with h'; linarith
  · have h := congrArg (jsField "open") heq
    rw [jsField_open, jsField_open] at h; injection h with h'; linarith
  · have h := congrArg (jsField "high") heq
    rw [jsField_high, jsField_high] at h; injection h with h'; linarith
  · have h := congrArg (jsField "low") heq
    rw [jsField_low, jsField_low] at h; injection h with h'; linarith
  · have h := congrArg (jsField "volume") heq
    rw [jsField_volume, jsField_volume] at h; injection h with h'; linarith
  · have h := congrArg (jsField "returns") heq
    rw [jsField_returns, jsField_returns] at h; injection h with h'; linarith
  · have h := congrArg (jsField "ma20") heq
    rw [jsField_ma20, jsField_ma20] at h; injection h with h'; linarith
  · have h := congrArg (jsField "ma50") heq
    rw [jsField_ma50, jsField_ma50] at h; injection h with h'; linarith
  · have h := congrArg (jsField "ma200") heq
    rw [jsField_ma200, jsField_ma200] at h; injection h with h'; linarith
  · have h := congrArg (jsField "atr") heq
    rw [jsField_atr, jsField_atr] at h; injection h with h'; linarith
  · have h := congrArg (jsField "obv") heq
    rw [jsField_obv, jsField_obv] at h; injection h with h'; linarith
  · have h := congrArg (jsField "ad") heq
    rw [jsField_ad, jsField_ad] at h; injection h with h'; linarith
  · have h := congrArg (jsField "momentum") heq
    rw [jsField_momentum, jsField_momentum] at h; injection h with h'; linarith
  · have h := congrArg (jsField "roc") heq
    rw [jsField_roc, jsField_roc] at h; injection h with h'; linarith
  · have h := congrArg (jsField "natr") heq
    rw [jsField_natr, jsField_natr] at h; injection h with h'; linarith
  · have h := congrArg (jsField "rsi") heq
    rw [jsField_rsi, jsField_rsi] at h; injection h with h'; linarith
  · have h := congrArg (jsField "macd") heq
    rw [jsField_macd, jsField_macd] at h; injection h with h'; linarith
  · have h := congrArg (jsField "macd_signal") heq
    rw [jsField_macd_signal, jsField_macd_signal] at h; injection h with h'; linarith
  · have h := congrArg (jsField "bb_upper") heq
    rw [jsField_bb_upper, jsField_bb_upper] at h; injection h with h'; linarith
  · have h := congrArg (jsField "bb_lower") heq
    rw [jsField_bb_lower, jsField_bb_lower] at h; injection h with h'; linarith

/-- If two streams disagree on any consumed row draw, the mock series
differ. -/
theorem mkStockData_ne (today : Int) (r1 r2 : Nat → ℚ)
    (h : ∃ i, i < 30 ∧ ∃ j, j < 20 ∧ r1 (20 * i + j) ≠ r2 (20 * i + j)) :
    mkStockData today r1 ≠ mkStockData today r2 := by
  obtain ⟨i, hi, j, hj, hne⟩ := h
  intro heq
  have hmap : (List.range 30).map (mkStockRow today r1)
      = (List.range 30).map (mkStockRow today r2) :=
    List.reverse_injective heq
  exact mkStockRow_draw_ne today r1 r2 i j hj hne
    (map_eq_on _ _ _ hmap i (List.mem_range.mpr hi))

/-- Renaming a client field name to its column and back is the identity. -/
theorem renameEntry_roundtrip (kv : String × JSVal)
    (hk : kv.1 ∈ clientFieldNames) :
    renameEntry reverseFieldMapping (renameEntry fieldMapping kv) = kv := by
  obtain ⟨k, v⟩ := kv
  simp only [clientFieldNames, fieldMapping, List.map_cons, List.map_nil,
    List.mem_cons, List.not_mem_nil, or_false] at hk
  rcases hk with rfl | rfl | rfl | rfl | rfl | rfl <;> rfl

/-! ## Concrete fixtures used by the witness theorems -/

/-- A JSON parser that never succeeds (used to exercise the fallback). -/
def testParse : String → Option JSVal := fun _ => none

/-- An environment holding an API key. -/
def testEnv : ChatEnv := ⟨some "test-key"⟩

/-- A well-formed chat request body. -/
def testBody : Option JSVal := some (.obj [("message", .str "Analyze AAPL")])

/-- A body whose `message` is present but not a string. -/
def badBody : Option JSVal := some (.obj [("message", .num 42)])

/-- The constant `Math.random()` stream `1/2`. -/
def halfStream : Nat → ℚ := fun _ => 1 / 2

/-- The constant `Math.random()` stream `1/4`. -/
def quarterStream : Nat → ℚ := fun _ => 1 / 4

/-- A valid stream whose draw for row 0's `high` is `0` and all other
draws are `1/2`, so that row 0 has `high = 50 < low = 100`. -/
def skewedStream : Nat → ℚ := fun n => if n = 2 then 0 else 1 / 2

/-- An auth lookup that rejects every token. -/
def rejectAllUsers : String → AuthOutcome := fun _ => .err "invalid"

/-- A `profiles` read that finds no row. -/
def noSelect : String → Except String (List (String × JSVal)) :=
  fun _ => .error "no row"

/-- A `profiles` write that fails. -/
def noUpsert : List (String × JSVal) → Except String (List (String × JSVal)) :=
  fun _ => .error "no row"

/-! ## Claims -/

/-- **C1.** For every chat request whose body is valid JSON containing a
string `message` and whose LLM provider call succeeds, the response has
status 200 and its `stockData` is a list of exactly 30 rows, every row
carrying all documented fields with each indicator field numeric. -/
theorem chat_success_thirty_rows (jsonParse : String → Option JSVal)
    (env : ChatEnv) (body : Option JSVal) (today : Int) (ts : String)
    (rng : Nat → ℚ) (uuid m key content : String)
    (hm : extractMessage body = some m) (hk : env.deepseekApiKey = some key) :
    (chatHandler jsonParse env body (.reply content) today ts rng uuid).response.status = 200 ∧
    ∃ rows, jsField "stockData"
        (chatHandler jsonParse env body (.reply content) today ts rng uuid).response.body
        = .arr rows ∧
      rows.length = 30 ∧
      ∀ row ∈ rows,
        (∀ f ∈ requiredFields, jsField f row ≠ .undefined) ∧
        ∀ f ∈ indicatorFields, ∃ q, jsField f row = .num q := by
  rw [chatHandler_success jsonParse env body today ts rng uuid m key content hm hk]
  refine ⟨rfl, mkStockData today rng, chatOkBody_stockData _ _ _ _ _,
    mkStockData_length today rng, ?_⟩
  intro row hrow
  obtain ⟨i, _, rfl⟩ := (mem_mkStockData today rng row).mp hrow
  exact mkStockRow_fields today rng i

theorem chat_success_thirty_rows_witness :
    extractMessage testBody = some "Analyze AAPL" ∧
    testEnv.deepseekApiKey = some "test-key" ∧
    ((chatHandler testParse testEnv testBody (.reply "hello") 20000 "ts" halfStream "uuid-1").response.status = 200 ∧
     ∃ rows, jsField "stockData"
         (chatHandler testParse testEnv testBody (.reply "hello") 20000 "ts" halfStream "uuid-1").response.body
         = .arr rows ∧
       rows.length = 30 ∧
       ∀ row ∈ rows,
         (∀ f ∈ requiredFields, jsField f row ≠ .undefined) ∧
         ∀ f ∈ indicatorFields, ∃ q, jsField f row = .num q) :=
  ⟨rfl, rfl, chat_success_thirty_rows testParse testEnv testBody 20000 "ts"
    halfStream "uuid-1" "Analyze AAPL" "test-key" "hello" rfl rfl⟩

/-- **C2.** When the provider's reply content does not parse as JSON, the
chat function still answers 200, with `analysisText.summary` the raw
reply text, empty factor lists, and the degraded outlook string — a
reply-parse failure never yields a non-2xx response. -/
theorem chat_malformed_reply_fallback (jsonParse : String → Option JSVal)
    (env : ChatEnv) (body : Option JSVal) (today : Int) (ts : String)
    (rng : Nat → ℚ) (uuid m key content : String)
    (hm : extractMessage body = some m) (hk : env.deepseekApiKey = some key)
    (hp : jsonParse content = none) :
    (chatHandler jsonParse env body (.reply content) today ts rng uuid).response.status = 200 ∧
    jsField "summary" (jsField "analysisText"
      (chatHandler jsonParse env body (.reply content) today ts rng uuid).response.body)
      = .str content ∧
    jsField "technicalFactors" (jsField "analysisText"
      (chatHandler jsonParse env body (.reply content) today ts rng uuid).response.body)
      = .arr [] ∧
    jsField "fundamentalFactors" (jsField "analysisText"
      (chatHandler jsonParse env body (.reply content) today ts rng uuid).response.body)
      = .arr [] ∧
    jsField "outlook" (jsField "analysisText"
      (chatHandler jsonParse env body (.reply content) today ts rng uuid).response.body)
      = .str "Unable to generate detailed analysis" := by
  rw [chatHandler_success jsonParse env body today ts rng uuid m key content hm hk]
  have ha : analysisOf jsonParse content = fallbackAnalysis content := by
    simp [analysisOf, hp]
  rw [ha]
  exact ⟨rfl, rfl, rfl, rfl, rfl⟩

theorem chat_malformed_reply_fallback_witness :
    extractMessage testBody = some "Analyze AAPL" ∧
    testEnv.deepseekApiKey = some "test-key" ∧
    testParse "not json" = none ∧
    ((chatHandler testParse testEnv testBody (.reply "not json") 20000 "ts" halfStream "uuid-1").response.status = 200 ∧
     jsField "summary" (jsField "analysisText"
       (chatHandler testParse testEnv testBody (.reply "not json") 20000 "ts" halfStream "uuid-1").response.body)
       = .str "not json" ∧
     jsField "technicalFactors" (jsField "analysisText"
       (chatHandler testParse testEnv testBody (.reply "not json") 20000 "ts" halfStream "uuid-1").response.body)
       = .arr [] ∧
     jsField "fundamentalFactors" (jsField "analysisText"
       (chatHandler testParse testEnv testBody (.reply "not json") 20000 "ts" halfStream "uuid-1").response.body)
       = .arr [] ∧
     jsField "outlook" (jsField "analysisText"
       (chatHandler testParse testEnv testBody (.reply "not json") 20000 "ts" halfStream "uuid-1").response.body)
       = .str "Unable to generate detailed analysis") :=
  ⟨rfl, rfl, rfl, chat_malformed_reply_fallback testParse testEnv testBody 20000
    "ts" halfStream "uuid-1" "Analyze AAPL" "test-key" "not json" rfl rfl rfl⟩

/-- **C3.** A chat request whose body is missing `message`, carries a
non-string `message`, or is not valid JSON is answered 400 with an
`error` string, and the upstream LLM provider is never called. -/
theorem chat_invalid_body_400 (jsonParse : String → Option JSVal)
    (env : ChatEnv) (body : Option JSVal) (llm : LLMOutcome) (today : Int)
    (ts : String) (rng : Nat → ℚ) (uuid : String)
    (h : body = none ∨ ∃ v, body = some v ∧ ∀ s : String, jsField "message" v ≠ .str s) :
    (chatHandler jsonParse env body llm today ts rng uuid).response.status = 400 ∧
    errorString (chatHandler jsonParse env body llm today ts rng uuid).response.body
      = some "Invalid JSON body" ∧
    (chatHandler jsonParse env body llm today ts rng uuid).upstreamCalled = false := by
  have hm : extractMessage body = none := by
    rcases h with rfl | ⟨v, rfl, hv⟩
    · rfl
    · simp only [extractMessage]
  have hres : chatHandler jsonParse env body llm today ts rng uuid
      = ⟨⟨400, errObj "Invalid JSON body"⟩, false⟩ := by
    simp only [chatHandler, hm]
  rw [hres]
  exact ⟨rfl, rfl, rfl⟩

theorem chat_invalid_body_400_witness :
    (badBody = none ∨ ∃ v, badBody = some v ∧ ∀ s : String, jsField "message" v ≠ .str s) ∧
    ((chatHandler testParse testEnv badBody (.reply "x") 0 "ts" halfStream "u").response.status = 400 ∧
     errorString (chatHandler testParse testEnv badBody (.reply "x") 0 "ts" halfStream "u").response.body
       = some "Invalid JSON body" ∧
     (chatHandler testParse testEnv badBody (.reply "x") 0 "ts" halfStream "u").upstreamCalled = false) :=
  ⟨Or.inr ⟨_, rfl, fun _ h => JSVal.noConfusion h⟩,
   chat_invalid_body_400 testParse testEnv badBody (.reply "x") 0 "ts" halfStream "u"
     (Or.inr ⟨_, rfl, fun _ h => JSVal.noConfusion h⟩)⟩

/-- **C4.** For every profile object whose keys are among the mapped
client field names, the POST-side client-to-storage renaming followed by
the GET-side storage-to-client renaming restores exactly the original
keys and values (the two mapping dictionaries are mutual inverses;
unmapped keys pass through each single renaming unchanged). -/
theorem profile_field_mapping_roundtrip :
    ∀ o : List (String × JSVal), (∀ kv ∈ o, kv.1 ∈ clientFieldNames) →
      renameKeys reverseFieldMapping (renameKeys fieldMapping o) = o := by
  intro o
  induction o with
  | nil => intro _; rfl
  | cons kv t ih =>
    intro h
    simp only [renameKeys, List.map_cons]
    rw [renameEntry_roundtrip kv (h kv (List.mem_cons_self kv t))]
    have ht := ih (fun kv' h' => h kv' (List.mem_cons_of_mem kv h'))
    simp only [renameKeys] at ht
    rw [ht]

theorem profile_field_mapping_roundtrip_witness :
    (∀ kv ∈ [(("riskTolerance" : String), JSVal.num 5)], kv.1 ∈ clientFieldNames) ∧
    renameKeys reverseFieldMapping (renameKeys fieldMapping
      [(("riskTolerance" : String), JSVal.num 5)])
      = [(("riskTolerance" : String), JSVal.num 5)] :=
  ⟨by decide, profile_field_mapping_roundtrip _ (by decide)⟩

/-- **C5.** A profile GET or POST without a bearer token resolvable to a
user (missing header or invalid token) is answered by the function's
error path — status 400, the 401-equivalent here — with an `error`
string, and no read or write of the `profiles` table is attempted. -/
theorem profile_unauthenticated_no_db (method : String)
    (authHeader : Option String) (getUser : String → AuthOutcome)
    (selectProfile : String → Except String (List (String × JSVal)))
    (upsertProfile : List (String × JSVal) → Except String (List (String × JSVal)))
    (body : Option JSVal) (nowIso : String)
    (hmeth : method = "GET" ∨ method = "POST")
    (hauth : authHeader = none ∨
      ∃ t msg, authHeader = some t ∧ getUser (stripBearer t) = .err msg) :
    (profileHandler method authHeader getUser selectProfile upsertProfile body nowIso).response.status = 400 ∧
    (∃ s, errorString
      (profileHandler method authHeader getUser selectProfile upsertProfile body nowIso).response.body
      = some s) ∧
    ∀ op ∈ (profileHandler method authHeader getUser selectProfile upsertProfile body nowIso).dbOps,
      op.touchesProfiles = false := by
  have hopt : method ≠ "OPTIONS" := by rcases hmeth with rfl | rfl <;> decide
  rcases hauth with rfl | ⟨t, msg, rfl, herr⟩
  · have hres : profileHandler method none getUser selectProfile upsertProfile body nowIso
        = ⟨⟨400, errObj "No authorization header"⟩, []⟩ := by
      simp only [profileHandler, if_neg hopt]
    rw [hres]
    exact ⟨rfl, ⟨"No authorization header", rfl⟩,
      fun op hop => absurd hop (List.not_mem_nil op)⟩
  · have hres : profileHandler method (some t) getUser selectProfile upsertProfile body nowIso
        = ⟨⟨400, errObj "Invalid token"⟩, [.authGetUser (stripBearer t)]⟩ := by
      simp only [profileHandler, if_neg hopt, herr]
    rw [hres]
    refine ⟨rfl, ⟨"Invalid token", rfl⟩, fun op hop => ?_⟩
    rw [List.mem_singleton.mp hop]
    rfl

theorem profile_unauthenticated_no_db_witness :
    ("GET" = "GET" ∨ "GET" = "POST") ∧
    ((none : Option String) = none ∨
      ∃ t msg, (none : Option String) = some t ∧ rejectAllUsers (stripBearer t) = .err msg) ∧
    ((profileHandler "GET" none rejectAllUsers noSelect noUpsert none "now").response.status = 400 ∧
     (∃ s, errorString
       (profileHandler "GET" none rejectAllUsers noSelect noUpsert none "now").response.body
       = some s) ∧
     ∀ op ∈ (profileHandler "GET" none rejectAllUsers noSelect noUpsert none "now").dbOps,
       op.touchesProfiles = false) :=
  ⟨Or.inl rfl, Or.inl rfl,
   profile_unauthenticated_no_db "GET" none rejectAllUsers noSelect noUpsert none "now"
     (Or.inl rfl) (Or.inl rfl)⟩

/-- **C6.** Two chat invocations with the same `message` but distinct
randomness — distinct freshly minted UUIDs and streams that disagree on
some consumed row draw — produce different `shareId` values and different
`stockData` series. -/
theorem chat_freshness_distinct (jsonParse : String → Option JSVal)
    (env : ChatEnv) (body : Option JSVal) (today : Int) (ts : String)
    (r1 r2 : Nat → ℚ) (u1 u2 m key content : String)
    (hm : extractMessage body = some m) (hk : env.deepseekApiKey = some key)
    (hu : u1 ≠ u2)
    (hr : ∃ i, i < 30 ∧ ∃ j, j < 20 ∧ r1 (20 * i + j) ≠ r2 (20 * i + j)) :
    jsField "shareId"
        (chatHandler jsonParse env body (.reply content) today ts r1 u1).response.body
      ≠ jsField "shareId"
        (chatHandler jsonParse env body (.reply content) today ts r2 u2).response.body ∧
    jsField "stockData"
        (chatHandler jsonParse env body (.reply content) today ts r1 u1).response.body
      ≠ jsField "stockData"
        (chatHandler jsonParse env body (.reply content) today ts r2 u2).response.body := by
  rw [chatHandler_success jsonParse env body today ts r1 u1 m key content hm hk,
      chatHandler_success jsonParse env body today ts r2 u2 m key content hm hk]
  refine ⟨fun h => ?_, fun h => ?_⟩
  · have h' : JSVal.str u1 = JSVal.str u2 := h
    injection h' with h''
    exact hu h''
  · have h' : JSVal.arr (mkStockData today r1) = JSVal.arr (mkStockData today r2) := h
    injection h' with h''
    exact mkStockData_ne today r1 r2 hr h''

theorem chat_freshness_distinct_witness :
    extractMessage testBody = some "Analyze AAPL" ∧
    testEnv.deepseekApiKey = some "test-key" ∧
    ("uuid-1" : String) ≠ "uuid-2" ∧
    (∃ i, i < 30 ∧ ∃ j, j < 20 ∧ halfStream (20 * i + j) ≠ quarterStream (20 * i + j)) ∧
    (jsField "shareId"
        (chatHandler testParse testEnv testBody (.reply "hello") 20000 "ts" halfStream "uuid-1").response.body
      ≠ jsField "shareId"
        (chatHandler testParse testEnv testBody (.reply "hello") 20000 "ts" quarterStream "uuid-2").response.body ∧
     jsField "stockData"
        (chatHandler testParse testEnv testBody (.reply "hello") 20000 "ts" halfStream "uuid-1").response.body
      ≠ jsField "stockData"
        (chatHandler testParse testEnv testBody (.reply "hello") 20000 "ts" quarterStream "uuid-2").response.body) :=
  ⟨rfl, rfl, by decide, ⟨0, by norm_num, 0, by norm_num, by norm_num [halfStream, quarterStream]⟩,
   chat_freshness_distinct testParse testEnv testBody 20000 "ts" halfStream
     quarterStream "uuid-1" "uuid-2" "Analyze AAPL" "test-key" "hello" rfl rfl
     (by decide)
     ⟨0, by norm_num, 0, by norm_num, by norm_num [halfStream, quarterStream]⟩⟩

/-- **C7 (counterexample).** The claim says a missing required
environment variable is startup-time fatal for the affected serverless
function.  It is not: with no `DEEPSEEK_API_KEY` the chat function still
starts (its module top level registers the handler unconditionally) and
accepts and serves a valid request, answering it 500 per request; the
profile function likewise starts with both of its variables absent. -/
theorem chat_env_startup_counterexample :
    chatStartup ⟨none⟩ = .started ∧
    profileStartup ⟨none, none⟩ = .started ∧
    (chatHandler testParse ⟨none⟩ testBody (.reply "ok") 0 "ts" halfStream "u").response.status = 500 ∧
    errorString
      (chatHandler testParse ⟨none⟩ testBody (.reply "ok") 0 "ts" halfStream "u").response.body
      = some "Missing API key" :=
  ⟨rfl, rfl, rfl, rfl⟩

/-- **C7 (amended).** A missing environment variable is not startup-fatal
for the serverless functions: both always start; the chat function
answers each well-formed request with a per-request 500 `Missing API key`
error, never reaching the upstream call; only the frontend supabase
client module fails at load time when its variables are absent. -/
theorem chat_missing_key_per_request (jsonParse : String → Option JSVal)
    (body : Option JSVal) (llm : LLMOutcome) (today : Int) (ts : String)
    (rng : Nat → ℚ) (uuid m : String)
    (hm : extractMessage body = some m) :
    (∀ e : ChatEnv, chatStartup e = .started) ∧
    (∀ e : ProfileEnv, profileStartup e = .started) ∧
    ((chatHandler jsonParse ⟨none⟩ body llm today ts rng uuid).response.status = 500 ∧
     errorString (chatHandler jsonParse ⟨none⟩ body llm today ts rng uuid).response.body
       = some "Missing API key" ∧
     (chatHandler jsonParse ⟨none⟩ body llm today ts rng uuid).upstreamCalled = false) ∧
    (∀ k, frontendSupabaseInit none k = .failed "Missing Supabase environment variables") := by
  refine ⟨fun _ => rfl, fun _ => rfl, ?_, fun _ => rfl⟩
  have hres : chatHandler jsonParse ⟨none⟩ body llm today ts rng uuid
      = ⟨⟨500, errObj "Missing API key"⟩, false⟩ := by
    simp only [chatHandler, hm]
  rw [hres]
  exact ⟨rfl, rfl, rfl⟩

theorem chat_missing_key_per_request_witness :
    extractMessage testBody = some "Analyze AAPL" ∧
    ((∀ e : ChatEnv, chatStartup e = .started) ∧
     (∀ e : ProfileEnv, profileStartup e = .started) ∧
     ((chatHandler testParse ⟨none⟩ testBody (.reply "ok") 0 "ts" halfStream "u").response.status = 500 ∧
      errorString (chatHandler testParse ⟨none⟩ testBody (.reply "ok") 0 "ts" halfStream "u").response.body
        = some "Missing API key" ∧
      (chatHandler testParse ⟨none⟩ testBody (.reply "ok") 0 "ts" halfStream "u").upstreamCalled = false) ∧
     (∀ k, frontendSupabaseInit none k = .failed "Missing Supabase environment variables")) :=
  ⟨rfl, chat_missing_key_per_request testParse testBody (.reply "ok") 0 "ts"
    halfStream "u" "Analyze AAPL" rfl⟩

/-- **C8.** The top-level view is always in exactly one of the three
render states; a submit with a non-blank message moves an authenticated
session into the loading state, while an unauthenticated submit opens the
auth modal, leaves the render state unchanged, and never enters loading. -/
theorem app_state_machine (s : AppState) (hmsg : jsTrim s.message ≠ "") :
    ((renderState s = .loading ∨ renderState s = .result ∨ renderState s = .landing) ∧
     ¬(renderState s = .loading ∧ renderState s = .result) ∧
     ¬(renderState s = .loading ∧ renderState s = .landing) ∧
     ¬(renderState s = .result ∧ renderState s = .landing)) ∧
    (s.isAuthenticated = true → renderState (handleSubmit s) = .loading) ∧
    (s.isAuthenticated = false →
      (handleSubmit s).showAuthModal = true ∧
      renderState (handleSubmit s) = renderState s ∧
      (renderState s ≠ .loading → renderState (handleSubmit s) ≠ .loading)) := by
  obtain ⟨msg, sr, il, sam, auth⟩ := s
  cases sr <;> cases il <;> cases auth <;>
    simp_all [renderState, handleSubmit]

theorem app_state_machine_witness :
    jsTrim (AppState.mk "tell me about TSLA" false false false false).message ≠ "" ∧
    (((renderState (AppState.mk "tell me about TSLA" false false false false) = .loading ∨
       renderState (AppState.mk "tell me about TSLA" false false false false) = .result ∨
       renderState (AppState.mk "tell me about TSLA" false false false false) = .landing) ∧
      ¬(renderState (AppState.mk "tell me about TSLA" false false false false) = .loading ∧
        renderState (AppState.mk "tell me about TSLA" false false false false) = .result) ∧
      ¬(renderState (AppState.mk "tell me about TSLA" false false false false) = .loading ∧
        renderState (AppState.mk "tell me about TSLA" false false false false) = .landing) ∧
      ¬(renderState (AppState.mk "tell me about TSLA" false false false false) = .result ∧
        renderState (AppState.mk "tell me about TSLA" false false false false) = .landing)) ∧
     ((AppState.mk "tell me about TSLA" false false false false).isAuthenticated = true →
       renderState (handleSubmit (AppState.mk "tell me about TSLA" false false false false)) = .loading) ∧
     ((AppState.mk "tell me about TSLA" false false false false).isAuthenticated = false →
       (handleSubmit (AppState.mk "tell me about TSLA" false false false false)).showAuthModal = true ∧
       renderState (handleSubmit (AppState.mk "tell me about TSLA" false false false false))
         = renderState (AppState.mk "tell me about TSLA" false false false false) ∧
       (renderState (AppState.mk "tell me about TSLA" false false false false) ≠ .loading →
         renderState (handleSubmit (AppState.mk "tell me about TSLA" false false false false)) ≠ .loading))) :=
  ⟨by decide, app_state_machine (AppState.mk "tell me about TSLA" false false false false) (by decide)⟩

/-- **C9.** In every successful chat response the 30 rows are in
ascending date order: the 0-based row `i` carries the date of the request
day minus `29 - i` days, so the series covers the 30 consecutive days
ending on the request date, oldest first. -/
theorem chat_dates_ascending (jsonParse : String → Option JSVal)
    (env : ChatEnv) (body : Option JSVal) (today : Int) (ts : String)
    (rng : Nat → ℚ) (uuid m key content : String)
    (hm : extractMessage body = some m) (hk : env.deepseekApiKey = some key) :
    ∃ rows, jsField "stockData"
        (chatHandler jsonParse env body (.reply content) today ts rng uuid).response.body
        = .arr rows ∧
      rows.length = 30 ∧
      ∀ i : Nat, i < 30 → ∃ row, rows[i]? = some row ∧
        jsField "date" row = .num (today - (29 - (i : Int))) := by
  rw [chatHandler_success jsonParse env body today ts rng uuid m key content hm hk]
  refine ⟨mkStockData today rng, chatOkBody_stockData _ _ _ _ _,
    mkStockData_length today rng, ?_⟩
  intro i hi
  refine ⟨mkStockRow today rng (29 - i), ?_, ?_⟩
  · unfold mkStockData
    rw [List.getElem?_reverse (by simpa using hi)]
    simp only [List.length_map, List.length_range]
    have h29 : 30 - 1 - i = 29 - i := by omega
    rw [h29, List.getElem?_map, List.getElem?_range (by omega)]
    rfl
  · rw [jsField_date]
    congr 1
    have hle : i ≤ 29 := by omega
    push_cast [Nat.cast_sub hle]
    ring

theorem chat_dates_ascending_witness :
    extractMessage testBody = some "Analyze AAPL" ∧
    testEnv.deepseekApiKey = some "test-key" ∧
    ∃ rows, jsField "stockData"
        (chatHandler testParse testEnv testBody (.reply "hello") 20000 "ts" halfStream "uuid-1").response.body
        = .arr rows ∧
      rows.length = 30 ∧
      ∀ i : Nat, i < 30 → ∃ row, rows[i]? = some row ∧
        jsField "date" row = .num (20000 - (29 - (i : Int))) :=
  ⟨rfl, rfl, chat_dates_ascending testParse testEnv testBody 20000 "ts"
    halfStream "uuid-1" "Analyze AAPL" "test-key" "hello" rfl rfl⟩

/-- **C10.** When the `Math.random()` stream is in `[0, 1)`, every
generated numeric field of every row lies in its fixed half-open range
(prices and moving averages in `[50, 150)`, volumes in `[0, 1000000)`,
returns in `[-0.05, 0.05)`, oscillators in `[-5, 5)`, `atr` in `[0, 5)`,
`natr` in `[0, 0.1)`, `rsi` in `[0, 100)`), and the same bounds hold for
the `stats.technical` snapshot; yet no cross-field consistency is
guaranteed — there is a valid stream on which a row has `high < low`. -/
theorem chat_value_ranges (jsonParse : String → Option JSVal)
    (env : ChatEnv) (body : Option JSVal) (today : Int) (ts : String)
    (rng : Nat → ℚ) (uuid m key content : String)
    (hm : extractMessage body = some m) (hk : env.deepseekApiKey = some key)
    (hr : ∀ n, 0 ≤ rng n ∧ rng n < 1) :
    (∃ rows, jsField "stockData"
        (chatHandler jsonParse env body (.reply content) today ts rng uuid).response.body
        = .arr rows ∧
      ∀ row ∈ rows, rowInRanges row) ∧
    statsInRanges (jsField "stats"
      (chatHandler jsonParse env body (.reply content) today ts rng uuid).response.body) ∧
    ∃ r2 : Nat → ℚ, (∀ n, 0 ≤ r2 n ∧ r2 n < 1) ∧
      ∃ rows2, jsField "stockData"
          (chatHandler jsonParse env body (.reply content) today ts r2 uuid).response.body
          = .arr rows2 ∧
        ∃ row ∈ rows2, ∃ qh ql : ℚ,
          jsField "high" row = .num qh ∧ jsField "low" row = .num ql ∧ qh < ql := by
  rw [chatHandler_success jsonParse env body today ts rng uuid m key content hm hk]
  refine ⟨⟨mkStockData today rng, chatOkBody_stockData _ _ _ _ _, ?_⟩, ?_,
    skewedStream, ?_, ?_⟩
  · intro row hrow
    obtain ⟨i, _, rfl⟩ := (mem_mkStockData today rng row).mp hrow
    exact mkStockRow_inRanges today rng i hr
  · exact mkStats_inRanges rng hr
  · intro n
    by_cases h : n = 2 <;> norm_num [skewedStream, h]
  · rw [chatHandler_success jsonParse env body today ts skewedStream uuid m key content hm hk]
    refine ⟨mkStockData today skewedStream, chatOkBody_stockData _ _ _ _ _,
      mkStockRow today skewedStream 0,
      (mem_mkStockData today skewedStream _).mpr ⟨0, by norm_num, rfl⟩,
      50, 100, ?_, ?_, by norm_num⟩
    · rw [jsField_high]
      norm_num [skewedStream]
    · rw [jsField_low]
      norm_num [skewedStream]

theorem chat_value_ranges_witness :
    extractMessage testBody = some "Analyze AAPL" ∧
    testEnv.deepseekApiKey = some "test-key" ∧
    (∀ n, 0 ≤ halfStream n ∧ halfStream n < 1) ∧
    ((∃ rows, jsField "stockData"
        (chatHandler testParse testEnv testBody (.reply "hello") 20000 "ts" halfStream "uuid-1").response.body
        = .arr rows ∧
      ∀ row ∈ rows, rowInRanges row) ∧
     statsInRanges (jsField "stats"
       (chatHandler testParse testEnv testBody (.reply "hello") 20000 "ts" halfStream "uuid-1").response.body) ∧
     ∃ r2 : Nat → ℚ, (∀ n, 0 ≤ r2 n ∧ r2 n < 1) ∧
       ∃ rows2, jsField "stockData"
           (chatHandler testParse testEnv testBody (.reply "hello") 20000 "ts" r2 "uuid-1").response.body
           = .arr rows2 ∧
         ∃ row ∈ rows2, ∃ qh ql : ℚ,
           jsField "high" row = .num qh ∧ jsField "low" row = .num ql ∧ qh < ql) :=
  ⟨rfl, rfl, fun _ => ⟨by norm_num [halfStream], by norm_num [halfStream]⟩,
   chat_value_ranges testParse testEnv testBody 20000 "ts" halfStream "uuid-1"
     "Analyze AAPL" "test-key" "hello" rfl rfl
     (fun _ => ⟨by norm_num [halfStream], by norm_num [halfStream]⟩)⟩

end FinanceBro
